import Mathlib

/-!
Verification of the shellpomodoro viewer against its source.

The embedding follows src/shellpomodoro/ipc.py and the live (first) revision
of attach_ui in src/shellpomodoro/cli.py.  Python dictionaries carrying the
wire status are modelled as a record of optional fields, where an absent key
and a key bound to None are identified (both are read back through dict.get).
Numeric JSON fields are modelled as integers, progress as a rational.
Socket sends and receives are modelled by their observable outcome: either
success or a raised exception drawn from the socket error family, every member
of which is a subclass of the Python class Exception.
-/

set_option maxRecDepth 8000

namespace Shellpomodoro

/-- Python exceptions that the embedded code can raise or catch.  The flag
computed by isException says whether the exception class derives from
Exception (KeyboardInterrupt derives only from BaseException). -/
inductive PyExc
  | connectionReset
  | brokenPipe
  | osError
  | jsonDecodeError
  | keyboardInterrupt
  deriving DecidableEq

/-- Whether the exception is caught by a bare except Exception clause. -/
def PyExc.isException : PyExc → Bool
  | .keyboardInterrupt => false
  | _ => true

/-- Exceptions a socket send or recv can raise (all are Exception subclasses). -/
inductive SockExc
  | connectionReset
  | brokenPipe
  | osError
  deriving DecidableEq

def SockExc.toPyExc : SockExc → PyExc
  | .connectionReset => .connectionReset
  | .brokenPipe => .brokenPipe
  | .osError => .osError

/-- The JSON object of a daemon reply, as the viewer reads it through dict.get:
each field is none when the key is absent (or bound to null). -/
structure RawStatus where
  status : Option String := none
  phase_id : Option Int := none
  phase_label : Option String := none
  display : Option String := none
  progress : Option ℚ := none
  remaining_s : Option Int := none
  left : Option Int := none
  elapsed_s : Option Int := none
  elapsed : Option Int := none
  duration_s : Option Int := none
  total : Option Int := none
  deriving DecidableEq

/-- What one recv returns when it succeeds: an empty string, bytes that
json.loads rejects, or a decodable JSON object. -/
inductive RecvData
  | empty
  | malformed
  | obj (r : RawStatus)
  deriving DecidableEq

/-- Observable behavior of one send/recv exchange on the socket. -/
structure StatusBehavior where
  sendExc : Option SockExc := none
  recvExc : Option SockExc := none
  data : RecvData := .empty
  deriving DecidableEq

/-- sock.send: succeeds or raises the given socket error. -/
def sendStep : Option SockExc → Except PyExc Unit
  | none => .ok ()
  | some x => .error x.toPyExc

/-- sock.recv followed by decode and strip: yields the received data or raises. -/
def recvStep (e : Option SockExc) (d : RecvData) : Except PyExc RecvData :=
  match e with
  | none => .ok d
  | some x => .error x.toPyExc

/-- json.loads on the received text: an empty or malformed string raises. -/
def jsonLoads : RecvData → Except PyExc RawStatus
  | .empty => .error .jsonDecodeError
  | .malformed => .error .jsonDecodeError
  | .obj r => .ok r

/-- A bare except Exception handler around a computation: errors that derive
from Exception are replaced by the given fallback value, others propagate. -/
def catchEx {α : Type} (fallback : α) : Except PyExc α → Except PyExc α
  | .ok v => .ok v
  | .error e => if e.isException then .ok fallback else .error e

/-- Body of ipc.hello (ipc.py lines 15 to 26) before its except clause:
send the hello message, read and decode the reply, test status == ok. -/
def helloBody (b : StatusBehavior) : Except PyExc Bool := do
  sendStep b.sendExc
  let d ← recvStep b.recvExc b.data
  let r ← jsonLoads d
  pure (r.status == some "ok")

/-- ipc.hello: the body wrapped in except Exception, returning False. -/
def hello (b : StatusBehavior) : Except PyExc Bool :=
  catchEx false (helloBody b)

/-- Body of ipc.status (ipc.py lines 28 to 41) before its except clause:
send the status request, read the reply; an empty reply gives None, a reply
whose status field is ended gives None, otherwise the decoded object. -/
def statusBody (b : StatusBehavior) : Except PyExc (Option RawStatus) := do
  sendStep b.sendExc
  let d ← recvStep b.recvExc b.data
  match d with
  | .empty => pure none
  | .malformed => .error .jsonDecodeError
  | .obj r => pure (if r.status = some "ended" then none else some r)

/-- ipc.status: the body wrapped in except Exception, returning None. -/
def status (b : StatusBehavior) : Except PyExc (Option RawStatus) :=
  catchEx none (statusBody b)

/-- Body of ipc.end_phase (ipc.py lines 43 to 51): send only, then True. -/
def endPhaseBody (e : Option SockExc) : Except PyExc Bool := do
  sendStep e
  pure true

/-- ipc.end_phase: the body wrapped in except Exception, returning False. -/
def end_phase (e : Option SockExc) : Except PyExc Bool :=
  catchEx false (endPhaseBody e)

/-- Body of ipc.abort (ipc.py lines 53 to 61): send only, then True. -/
def abortBody (e : Option SockExc) : Except PyExc Bool := do
  sendStep e
  pure true

/-- ipc.abort: the body wrapped in except Exception, returning False. -/
def abort (e : Option SockExc) : Except PyExc Bool :=
  catchEx false (abortBody e)

/-- The value the viewer obtains from calling ipc.status. -/
def statusFn (b : StatusBehavior) : Option RawStatus :=
  match status b with
  | .ok v => v
  | .error _ => none

/-- Python percent 02d formatting of a nonnegative integer: zero padded to at
least two digits. -/
def pad2 (n : Nat) : String :=
  if n < 10 then "0" ++ toString n else toString n

/-- cli.mmss (cli.py lines 105 to 130): clamp at zero, then minutes and
seconds by divmod 60, each zero padded to at least two digits. -/
def mmss (seconds : Int) : String :=
  let s := (max 0 seconds).toNat
  pad2 (s / 60) ++ ":" ++ pad2 (s % 60)

/-- The viewer local helper named with a leading underscore in attach_ui
(cli.py lines 515 to 517), textually the same computation as mmss. -/
def viewerMmss (seconds : Int) : String :=
  let s := (max 0 seconds).toNat
  pad2 (s / 60) ++ ":" ++ pad2 (s % 60)

/-- Python x or 0 on an optional integer: None gives 0 (and 0 gives 0). -/
def pyOrZero (x : Option Int) : Int := x.getD 0

/-- Python dict.get with a second dict.get as default, as in
st.get(k1, st.get(k2)). -/
def pyGetOr {α : Type} (a b : Option α) : Option α :=
  match a with
  | some x => some x
  | none => b

/-- Python round on a rational: round half to even, as float rounding does. -/
def pyRound (q : ℚ) : Int :=
  let f := ⌊q⌋
  if q - f < 1 / 2 then f
  else if 1 / 2 < q - f then f + 1
  else if f % 2 = 0 then f else f + 1

/-- The payload dictionary built by the live attach_ui loop
(cli.py lines 556 to 567). -/
structure Payload where
  phase_id : Option Int
  phase_label : Option String
  display : String
  progress : ℚ
  remaining_s : Option Int
  elapsed_s : Option Int
  duration_s : Option Int
  remaining_mmss : String
  elapsed_mmss : String
  duration_mmss : String
  deriving DecidableEq

/-- The normalization performed inline by the live attach_ui loop
(cli.py lines 551 to 567): current names fall back to the legacy names
left, elapsed and total; display defaults to the empty string; progress
defaults to zero; the mmss strings are formatted from the value or zero.
No field is ever derived from another. -/
def normalizeLive (st : RawStatus) : Payload :=
  let rem := pyGetOr st.remaining_s st.left
  let el := pyGetOr st.elapsed_s st.elapsed
  let dur := pyGetOr st.duration_s st.total
  { phase_id := st.phase_id
    phase_label := st.phase_label
    display := st.display.getD ""
    progress := st.progress.getD 0
    remaining_s := rem
    elapsed_s := el
    duration_s := dur
    remaining_mmss := viewerMmss (pyOrZero rem)
    elapsed_mmss := viewerMmss (pyOrZero el)
    duration_mmss := viewerMmss (pyOrZero dur) }

/-- A fingerprint value: the tuples returned by the viewer fingerprint
function, one constructor per tag. -/
inductive Fp
  | tb (n : Int)
  | tf (n : Int)
  | p (n : Int)
  | raw (pid : Option Int)
  deriving DecidableEq

/-- The live fingerprint function (cli.py lines 519 to 527): timer-back on
int(remaining_s or 0), timer-forward on int(elapsed_s or 0), bar and dots on
progress times 1000 rounded, anything else on phase_id. -/
def fingerprintLive (st : Payload) : Fp :=
  if st.display = "timer-back" then .tb (pyOrZero st.remaining_s)
  else if st.display = "timer-forward" then .tf (pyOrZero st.elapsed_s)
  else if st.display = "bar" ∨ st.display = "dots" then
    .p (pyRound (st.progress * 1000))
  else .raw st.phase_id

/-- The later, unreachable copy of the fingerprint function
(cli.py lines 647 to 655): identical except that it applies int directly to
the field, so a None field raises a TypeError, modelled as none. -/
def fingerprintLater (st : Payload) : Option Fp :=
  if st.display = "timer-back" then st.remaining_s.map .tb
  else if st.display = "timer-forward" then st.elapsed_s.map .tf
  else if st.display = "bar" ∨ st.display = "dots" then
    some (.p (pyRound (st.progress * 1000)))
  else some (.raw st.phase_id)

/-- The record produced by the later, unreachable normalization helper. -/
structure NormPayload where
  phase_id : Option Int
  phase_label : String
  remaining_s : Int
  elapsed_s : Int
  duration_s : Int
  progress : ℚ
  display : String
  deriving DecidableEq

/-- The later, unreachable normalization helper (cli.py lines 657 to 675):
it accepts the legacy names left and total, derives elapsed_s as
max 0 (duration_s - remaining_s) when elapsed_s is absent and both others are
present, defaults absent numerics to zero, and defaults a falsy display to
timer-back. -/
def normLater (st : RawStatus) : NormPayload :=
  let rem := pyGetOr st.remaining_s st.left
  let dur := pyGetOr st.duration_s st.total
  let el :=
    match st.elapsed_s, rem, dur with
    | none, some r, some d => some (max 0 (d - r))
    | e, _, _ => e
  { phase_id := st.phase_id
    phase_label := st.phase_label.getD ""
    remaining_s := rem.getD 0
    elapsed_s := el.getD 0
    duration_s := dur.getD 0
    progress := st.progress.getD 0
    display :=
      match st.display with
      | none => "timer-back"
      | some s => if s = "" then "timer-back" else s }

/-- Modelled from the spec: the hotkey capability lives in the keypress
module, which is not under src; section 6 of the spec says its non blocking
poll returns one of NONE, END_PHASE, ABORT, TOGGLE_HIDE, OTHER. -/
inductive Hotkey
  | NONE
  | END_PHASE
  | ABORT
  | TOGGLE_HIDE
  | OTHER
  deriving DecidableEq

/-- Observable output events of attach_ui, in emission order.  paint stands
for one painting of the status line, by print without ANSI or by the
clear-line carriage-return write with ANSI; park is the cursor-up write that
parks the cursor back on the status line after the legend; finishPad is the
cursor-down newline (ANSI) or the blank line printed before the finished
marker. -/
inductive Ev
  | header (label : Option String)
  | paint (line : String)
  | legend
  | park
  | finishPad
  | sessionFinished
  | detach
  | noConnectMsg
  | authFailedMsg
  | authConnLostMsg
  | rendererFailedMsg
  | connLostEndPhaseMsg
  | interruptedMsg
  | connLostMsg
  deriving DecidableEq

/-- Requests delivered to the daemon (a send that raises delivers nothing). -/
inductive Req
  | helloReq
  | statusReq
  | endPhaseReq
  | abortReq
  deriving DecidableEq

/-- How control left the polling loop. -/
inductive InnerExit
  | finished
  | detached
  | interrupted
  | connLost
  | endPhaseConnLost
  deriving DecidableEq

/-- Overall outcome of attach_ui.  Every exit of the polling loop passes
through the finally block at cli.py lines 615 to 623, whose diagnostic print
evaluates an f-string naming the local e; e is unbound on every path that
reaches the finally, so the print raises UnboundLocalError, which propagates
out of attach_ui and is recorded here as raisedNameError.  stuck is a model
artifact: the supplied list of poll results was exhausted while the loop
would keep polling. -/
inductive Outcome
  | noConnect
  | authFailed
  | authConnLost
  | rendererFailed
  | raisedNameError (inner : InnerExit)
  | stuck
  deriving DecidableEq

/-- Viewer environment fixed for the whole attach: the ANSI capability probe
and the frame method of the constructed renderer. -/
structure ViewerEnv where
  ansi : Bool
  frame : Payload → String

/-- One iteration worth of environment input: the socket behavior of the
status exchange together with the socket behavior of an end_phase send if
one happens this iteration, or an asynchronous KeyboardInterrupt, or an
OS level fault raised inside the loop body. -/
inductive Tick
  | poll (b : StatusBehavior) (ep : Option SockExc)
  | interrupt
  | fault

/-- Result of one poll iteration: exit the loop with trailing events, or
continue with updated dedup state and hotkey buffer. -/
inductive StepOut
  | exit (evs : List Ev) (inner : InnerExit)
  | cont (evs : List Ev) (lp : Option Int) (lk : Option Fp) (keys : List Hotkey)

/-- One iteration of the live attach_ui loop body (cli.py lines 538 to 610)
on a status exchange.  A None status takes the session finished exit.  A new
phase (first iteration, or phase_id differing from the stored one) prints the
header, one status line and the legend, then continues without polling the
hotkey.  Otherwise the line is repainted when the mode is bar or dots under
ANSI or when the fingerprint changed, and only a repainting iteration reaches
the hotkey poll; a TOGGLE_HIDE hotkey detaches, an END_PHASE hotkey sends
end_phase, every other value including ABORT falls through to the sleep. -/
def stepPoll (env : ViewerEnv) (b : StatusBehavior) (ep : Option SockExc)
    (keys : List Hotkey) (lp : Option Int) (lk : Option Fp) :
    StepOut × List Req :=
  let sreq : List Req := if b.sendExc = none then [.statusReq] else []
  match statusFn b with
  | none => (.exit [.finishPad, .sessionFinished] .finished, sreq)
  | some raw =>
    let payload := normalizeLive raw
    let cur := fingerprintLive payload
    if lp = none ∨ payload.phase_id ≠ lp then
      (.cont ([.header payload.phase_label, .paint (env.frame payload),
          .legend] ++ if env.ansi then [.park] else [])
        payload.phase_id (some cur) keys, sreq)
    else if ¬ ((env.ansi ∧ (payload.display = "bar" ∨ payload.display = "dots"))
        ∨ some cur ≠ lk) then
      (.cont [] lp lk keys, sreq)
    else
      match keys.headD .NONE with
      | .TOGGLE_HIDE =>
        (.exit [.paint (env.frame payload), .detach] .detached, sreq)
      | .END_PHASE =>
        let epreq : List Req := if ep = none then [.endPhaseReq] else []
        match end_phase ep with
        | .error _ =>
          (.exit [.paint (env.frame payload), .connLostEndPhaseMsg]
            .endPhaseConnLost, sreq ++ epreq)
        | .ok _ =>
          (.cont [.paint (env.frame payload)] lp (some cur) keys.tail,
            sreq ++ epreq)
      | _ =>
        (.cont [.paint (env.frame payload)] lp (some cur) keys.tail, sreq)

/-- The live attach_ui polling loop (cli.py lines 538 to 610), consuming one
Tick per iteration; returns the emitted events, the delivered requests, and
how the loop exited (none when the tick list ran out first). -/
def loopRun (env : ViewerEnv) :
    List Tick → List Hotkey → Option Int → Option Fp →
    List Ev × List Req × Option InnerExit
  | [], _, _, _ => ([], [], none)
  | .interrupt :: _, _, _, _ => ([.interruptedMsg], [], some .interrupted)
  | .fault :: _, _, _, _ => ([.connLostMsg], [], some .connLost)
  | .poll b ep :: rest, keys, lp, lk =>
    match stepPoll env b ep keys lp lk with
    | (.exit evs i, rq) => (evs, rq, some i)
    | (.cont evs lp2 lk2 keys2, rq) =>
      let r := loopRun env rest keys2 lp2 lk2
      (evs ++ r.1, rq ++ r.2.1, r.2.2)

/-- Inputs of one attach_ui invocation. -/
structure AttachArgs where
  connectExc : Option SockExc
  helloB : StatusBehavior
  rendererOk : Bool
  env : ViewerEnv
  ticks : List Tick
  keys : List Hotkey

/-- Observable result of one attach_ui invocation. -/
structure AttachResult where
  trace : List Ev
  reqs : List Req
  outcome : Outcome
  rendererClosed : Bool
  sockClosed : Bool
  deriving DecidableEq

/-- The live attach_ui (cli.py lines 486 to 623).  A connect failure, an
authentication failure, a connection loss during the handshake, and a
renderer construction failure each print a one line message and return
without closing the socket.  Once the loop is entered, every exit runs the
finally block: the renderer and the socket are closed, and then the stray
diagnostic print raises UnboundLocalError, recorded as raisedNameError. -/
def attachUI (a : AttachArgs) : AttachResult :=
  match a.connectExc with
  | some _ =>
    { trace := [.noConnectMsg], reqs := [], outcome := .noConnect,
      rendererClosed := false, sockClosed := false }
  | none =>
    let hreq : List Req := if a.helloB.sendExc = none then [.helloReq] else []
    match hello a.helloB with
    | .error _ =>
      { trace := [.authConnLostMsg], reqs := hreq, outcome := .authConnLost,
        rendererClosed := false, sockClosed := false }
    | .ok false =>
      { trace := [.authFailedMsg], reqs := hreq, outcome := .authFailed,
        rendererClosed := false, sockClosed := false }
    | .ok true =>
      if a.rendererOk then
        match loopRun a.env a.ticks a.keys none none with
        | (t, r, some inner) =>
          { trace := t, reqs := hreq ++ r,
            outcome := .raisedNameError inner,
            rendererClosed := true, sockClosed := true }
        | (t, r, none) =>
          { trace := t, reqs := hreq ++ r, outcome := .stuck,
            rendererClosed := false, sockClosed := false }
      else
        { trace := [.rendererFailedMsg], reqs := hreq,
          outcome := .rendererFailed,
          rendererClosed := false, sockClosed := false }

/-- A concrete renderer frame used for the concrete runs below: it shows the
remaining time, like the countdown renderer. -/
def frameD (p : Payload) : String := p.remaining_mmss

/-- Viewer environment without ANSI support. -/
def envNoAnsi : ViewerEnv := ⟨false, frameD⟩

/-- Viewer environment with ANSI support. -/
def envAnsi : ViewerEnv := ⟨true, frameD⟩

/-- A clean socket exchange delivering the given decoded object. -/
def okB (r : RawStatus) : StatusBehavior := { data := .obj r }

/-- A clean exchange delivering the ended sentinel reply. -/
def endedB : StatusBehavior := { data := .obj { status := some "ended" } }

/-- A clean exchange delivering bytes that json.loads rejects. -/
def malformedB : StatusBehavior := { data := .malformed }

/-- A clean handshake exchange delivering the ok reply. -/
def helloOkB : StatusBehavior := { data := .obj { status := some "ok" } }

/-- A clean handshake exchange delivering an error reply. -/
def helloErrB : StatusBehavior := { data := .obj { status := some "error" } }

/-- A countdown status object for phase pid with the given remaining time. -/
def rawTB (pid rem dur : Int) : RawStatus :=
  { phase_id := some pid, phase_label := some "Focus",
    display := some "timer-back",
    remaining_s := some rem, duration_s := some dur }

/-- Arguments of the concrete run for the abort hotkey claim: three countdown
polls of one phase followed by the ended sentinel, with an ABORT hotkey
pending from the start. -/
def abortRunArgs : AttachArgs where
  connectExc := none
  helloB := helloOkB
  rendererOk := true
  env := envNoAnsi
  ticks := [.poll (okB (rawTB 1 10 60)) none, .poll (okB (rawTB 1 9 60)) none,
    .poll (okB (rawTB 1 8 60)) none, .poll endedB none]
  keys := [.ABORT]

/-- The events emitted by one step, whichever way it went. -/
def StepOut.evs : StepOut → List Ev
  | .exit evs _ => evs
  | .cont evs _ _ _ => evs

/-- Events that the polling loop itself can emit, as opposed to the one line
diagnostics printed before the loop or in the dead end_phase handler. -/
def Ev.isLoopEv : Ev → Bool
  | .noConnectMsg => false
  | .authFailedMsg => false
  | .authConnLostMsg => false
  | .rendererFailedMsg => false
  | .connLostEndPhaseMsg => false
  | _ => true

/-- How many times the status line was painted in a trace. -/
def countPaint : List Ev → Nat
  | [] => 0
  | .paint _ :: rest => countPaint rest + 1
  | _ :: rest => countPaint rest

/-- Whether x occurs in the list immediately followed by y. -/
def hasAdjacent (x y : Ev) : List Ev → Bool
  | [] => false
  | [_] => false
  | a :: b :: rest =>
    (decide (a = x) && decide (b = y)) || hasAdjacent x y (b :: rest)

/-- A bar mode status object for phase pid with the given progress. -/
def rawBar (pid : Int) (q : ℚ) : RawStatus :=
  { phase_id := some pid, phase_label := some "Focus",
    display := some "bar", progress := some q }

/-- A run in which the very first reply is the ended sentinel. -/
def finishRunArgs : AttachArgs where
  connectExc := none
  helloB := helloOkB
  rendererOk := true
  env := envNoAnsi
  ticks := [.poll endedB none]
  keys := []

/-- A run interrupted by Ctrl plus C at the second poll. -/
def interruptRunArgs : AttachArgs where
  connectExc := none
  helloB := helloOkB
  rendererOk := true
  env := envNoAnsi
  ticks := [.poll (okB (rawTB 1 10 60)) none, .interrupt]
  keys := []

/-- A run whose first reply is undecodable and whose second is a live
payload that the viewer would consume if it kept polling. -/
def malformedRunArgs : AttachArgs where
  connectExc := none
  helloB := helloOkB
  rendererOk := true
  env := envNoAnsi
  ticks := [.poll malformedB none, .poll (okB (rawTB 1 10 60)) none]
  keys := []

/-- A run with a TOGGLE_HIDE hotkey pending from the first poll on. -/
def detachRunArgs : AttachArgs where
  connectExc := none
  helloB := helloOkB
  rendererOk := true
  env := envNoAnsi
  ticks := [.poll (okB (rawTB 1 10 60)) none, .poll (okB (rawTB 1 9 60)) none]
  keys := [.TOGGLE_HIDE]

/-- A run whose handshake is answered with an error reply. -/
def authFailArgs : AttachArgs where
  connectExc := none
  helloB := helloErrB
  rendererOk := true
  env := envNoAnsi
  ticks := []
  keys := []

/-- A status object carrying only the legacy names left and total, with no
elapsed field at all, in count up mode. -/
def raw7 : RawStatus :=
  { phase_id := some 1, phase_label := some "Focus",
    display := some "timer-forward", left := some 10, total := some 60 }

/-- A payload in timer-back mode with remaining_s present. -/
def payloadTB (r : Option Int) : Payload :=
  { phase_id := some 1, phase_label := some "Focus", display := "timer-back",
    progress := 0, remaining_s := r, elapsed_s := none, duration_s := some 60,
    remaining_mmss := "00:00", elapsed_mmss := "00:00",
    duration_mmss := "01:00" }

lemma hello_total (b : StatusBehavior) : ∃ v, hello b = .ok v := by
  rcases b with ⟨se, re, d⟩
  rcases se with _ | x
  · rcases re with _ | y
    · cases d <;> exact ⟨_, rfl⟩
    · cases y <;> exact ⟨_, rfl⟩
  · cases x <;> exact ⟨_, rfl⟩

lemma status_total (b : StatusBehavior) : ∃ v, status b = .ok v := by
  rcases b with ⟨se, re, d⟩
  rcases se with _ | x
  · rcases re with _ | y
    · cases d <;> exact ⟨_, rfl⟩
    · cases y <;> exact ⟨_, rfl⟩
  · cases x <;> exact ⟨_, rfl⟩

lemma end_phase_eq (e : Option SockExc) : end_phase e = .ok e.isNone := by
  rcases e with _ | x
  · rfl
  · cases x <;> rfl

lemma abort_eq (e : Option SockExc) : abort e = .ok e.isNone := by
  rcases e with _ | x
  · rfl
  · cases x <;> rfl

lemma status_eq_statusFn (b : StatusBehavior) : status b = .ok (statusFn b) := by
  obtain ⟨v, hv⟩ := status_total b
  simp [statusFn, hv]

lemma stepPoll_req_mem (env : ViewerEnv) (b : StatusBehavior)
    (ep : Option SockExc) (keys : List Hotkey) (lp : Option Int)
    (lk : Option Fp) :
    ∀ x ∈ (stepPoll env b ep keys lp lk).2,
      x = Req.statusReq ∨ x = Req.endPhaseReq := by
  intro x hx
  simp only [stepPoll] at hx
  repeat' split at hx
  all_goals simp_all

lemma stepPoll_evs_no_eplost (env : ViewerEnv) (b : StatusBehavior)
    (ep : Option SockExc) (keys : List Hotkey) (lp : Option Int)
    (lk : Option Fp) :
    Ev.connLostEndPhaseMsg ∉ ((stepPoll env b ep keys lp lk).1).evs := by
  intro hx
  simp only [stepPoll] at hx
  repeat' split at hx
  all_goals simp_all [StepOut.evs, end_phase_eq]

lemma stepPoll_not_eplost (env : ViewerEnv) (b : StatusBehavior)
    (ep : Option SockExc) (keys : List Hotkey) (lp : Option Int)
    (lk : Option Fp) (evs : List Ev) :
    (stepPoll env b ep keys lp lk).1 ≠ .exit evs .endPhaseConnLost := by
  intro hx
  simp only [stepPoll] at hx
  repeat' split at hx
  all_goals simp_all [end_phase_eq]

lemma stepPoll_detached_shape (env : ViewerEnv) (b : StatusBehavior)
    (ep : Option SockExc) (keys : List Hotkey) (lp : Option Int)
    (lk : Option Fp) (evs : List Ev)
    (h : (stepPoll env b ep keys lp lk).1 = .exit evs .detached) :
    ∃ s, evs = [.paint s, .detach] := by
  simp only [stepPoll] at h
  repeat' split at h
  all_goals simp_all
  all_goals exact ⟨_, h.symm⟩

lemma stepPoll_cont_keys (env : ViewerEnv) (b : StatusBehavior)
    (ep : Option SockExc) (keys : List Hotkey) (lp : Option Int)
    (lk : Option Fp) (evs : List Ev) (lp2 : Option Int) (lk2 : Option Fp)
    (keys2 : List Hotkey)
    (h : (stepPoll env b ep keys lp lk).1 = .cont evs lp2 lk2 keys2) :
    keys2 = keys ∨ keys2 = keys.tail := by
  simp only [stepPoll] at h
  repeat' split at h
  all_goals simp_all

lemma stepPoll_no_endPhaseReq (env : ViewerEnv) (b : StatusBehavior)
    (ep : Option SockExc) (keys : List Hotkey) (lp : Option Int)
    (lk : Option Fp) (hk : keys.headD .NONE ≠ .END_PHASE) :
    Req.endPhaseReq ∉ (stepPoll env b ep keys lp lk).2 := by
  intro hx
  simp only [stepPoll] at hx
  repeat' split at hx
  all_goals simp_all

lemma stepPoll_evs_loopish (env : ViewerEnv) (b : StatusBehavior)
    (ep : Option SockExc) (keys : List Hotkey) (lp : Option Int)
    (lk : Option Fp) :
    ∀ x ∈ ((stepPoll env b ep keys lp lk).1).evs, x.isLoopEv = true := by
  intro x hx
  simp only [stepPoll] at hx
  repeat' split at hx
  all_goals simp_all [StepOut.evs, end_phase_eq]
  all_goals try casesm* _ ∨ _
  all_goals subst_vars
  all_goals rfl

lemma loopRun_req_mem (env : ViewerEnv) (ticks : List Tick) :
    ∀ keys lp lk, ∀ x ∈ (loopRun env ticks keys lp lk).2.1,
      x = Req.statusReq ∨ x = Req.endPhaseReq := by
  induction ticks with
  | nil => intro keys lp lk x hx; simp [loopRun] at hx
  | cons t rest ih =>
    intro keys lp lk x hx
    cases t with
    | interrupt => simp [loopRun] at hx
    | fault => simp [loopRun] at hx
    | poll b ep =>
      simp only [loopRun] at hx
      rcases hs : stepPoll env b ep keys lp lk with ⟨s, rq⟩
      rw [hs] at hx
      have hrq : ∀ y ∈ rq, y = Req.statusReq ∨ y = Req.endPhaseReq := by
        intro y hy
        exact stepPoll_req_mem env b ep keys lp lk y (by rw [hs]; exact hy)
      cases s with
      | exit evs i => exact hrq x hx
      | cont evs lp2 lk2 keys2 =>
        simp only [List.mem_append] at hx
        rcases hx with hx | hx
        · exact hrq x hx
        · exact ih keys2 lp2 lk2 x hx

lemma loopRun_evs_loopish (env : ViewerEnv) (ticks : List Tick) :
    ∀ keys lp lk, ∀ x ∈ (loopRun env ticks keys lp lk).1,
      x.isLoopEv = true := by
  induction ticks with
  | nil => intro keys lp lk x hx; simp [loopRun] at hx
  | cons t rest ih =>
    intro keys lp lk x hx
    cases t with
    | interrupt => simp [loopRun] at hx; simp [hx, Ev.isLoopEv]
    | fault => simp [loopRun] at hx; simp [hx, Ev.isLoopEv]
    | poll b ep =>
      simp only [loopRun] at hx
      rcases hs : stepPoll env b ep keys lp lk with ⟨s, rq⟩
      rw [hs] at hx
      have hevs : ∀ y ∈ (s.evs : List Ev), y.isLoopEv = true := by
        intro y hy
        exact stepPoll_evs_loopish env b ep keys lp lk y (by rw [hs]; exact hy)
      cases s with
      | exit evs i => exact hevs x hx
      | cont evs lp2 lk2 keys2 =>
        simp only [List.mem_append] at hx
        rcases hx with hx | hx
        · exact hevs x hx
        · exact ih keys2 lp2 lk2 x hx

lemma loopRun_not_eplost (env : ViewerEnv) (ticks : List Tick) :
    ∀ keys lp lk,
      (loopRun env ticks keys lp lk).2.2 ≠ some .endPhaseConnLost := by
  induction ticks with
  | nil => intro keys lp lk h; simp [loopRun] at h
  | cons t rest ih =>
    intro keys lp lk h
    cases t with
    | interrupt => simp [loopRun] at h
    | fault => simp [loopRun] at h
    | poll b ep =>
      simp only [loopRun] at h
      rcases hs : stepPoll env b ep keys lp lk with ⟨s, rq⟩
      rw [hs] at h
      cases s with
      | exit evs i =>
        simp only [Option.some_inj] at h
        exact stepPoll_not_eplost env b ep keys lp lk evs (by rw [hs, h])
      | cont evs lp2 lk2 keys2 => exact ih keys2 lp2 lk2 h

lemma loopRun_detached_shape (env : ViewerEnv) (ticks : List Tick) :
    ∀ keys lp lk,
      (loopRun env ticks keys lp lk).2.2 = some .detached →
      ∃ pre s, (loopRun env ticks keys lp lk).1 =
        pre ++ [Ev.paint s, Ev.detach] := by
  induction ticks with
  | nil => intro keys lp lk h; simp [loopRun] at h
  | cons t rest ih =>
    intro keys lp lk h
    cases t with
    | interrupt => simp [loopRun] at h
    | fault => simp [loopRun] at h
    | poll b ep =>
      simp only [loopRun] at h ⊢
      rcases hs : stepPoll env b ep keys lp lk with ⟨s, rq⟩
      simp only [hs] at h ⊢
      cases s with
      | exit evs i =>
        simp only [Option.some_inj] at h
        obtain ⟨line, hline⟩ :=
          stepPoll_detached_shape env b ep keys lp lk evs (by rw [hs, h])
        exact ⟨[], line, by simpa using hline⟩
      | cont evs lp2 lk2 keys2 =>
        simp only [] at h
        obtain ⟨pre, line, hline⟩ := ih keys2 lp2 lk2 h
        exact ⟨evs ++ pre, line, by simp [hline]⟩

lemma loopRun_no_endPhaseReq (env : ViewerEnv) (ticks : List Tick) :
    ∀ keys lp lk, Hotkey.END_PHASE ∉ keys →
      Req.endPhaseReq ∉ (loopRun env ticks keys lp lk).2.1 := by
  induction ticks with
  | nil => intro keys lp lk _ h; simp [loopRun] at h
  | cons t rest ih =>
    intro keys lp lk hkeys h
    cases t with
    | interrupt => simp [loopRun] at h
    | fault => simp [loopRun] at h
    | poll b ep =>
      have hhead : keys.headD .NONE ≠ .END_PHASE := by
        cases keys with
        | nil => simp
        | cons a l =>
          simp only [List.headD_cons]
          intro hh
          exact hkeys (by simp [hh])
      simp only [loopRun] at h
      rcases hs : stepPoll env b ep keys lp lk with ⟨s, rq⟩
      rw [hs] at h
      have hrqn : Req.endPhaseReq ∉ rq := by
        intro hy
        exact stepPoll_no_endPhaseReq env b ep keys lp lk hhead
          (by rw [hs]; exact hy)
      cases s with
      | exit evs i => exact hrqn h
      | cont evs lp2 lk2 keys2 =>
        simp only [List.mem_append] at h
        rcases h with h | h
        · exact hrqn h
        · have hkeys2 : Hotkey.END_PHASE ∉ keys2 := by
            rcases stepPoll_cont_keys env b ep keys lp lk evs lp2 lk2 keys2
              (by rw [hs]) with hk2 | hk2
            · rw [hk2]; exact hkeys
            · rw [hk2]; intro hmem
              exact hkeys (List.mem_of_mem_tail hmem)
          exact ih keys2 lp2 lk2 hkeys2 h

lemma attachUI_dead_msgs (a : AttachArgs) :
    Ev.authConnLostMsg ∉ (attachUI a).trace ∧
    Ev.connLostEndPhaseMsg ∉ (attachUI a).trace := by
  rcases a with ⟨ce, hb, ro, env, ticks, keys⟩
  obtain ⟨v, hv⟩ := hello_total hb
  rcases hl : loopRun env ticks keys none none with ⟨t, r, o⟩
  have hloop : ∀ x ∈ t, Ev.isLoopEv x = true := by
    intro x hx
    have h2 := loopRun_evs_loopish env ticks keys none none x
    rw [hl] at h2
    exact h2 hx
  have h3 : Ev.authConnLostMsg ∉ t := by
    intro hx
    simpa [Ev.isLoopEv] using hloop _ hx
  have h4 : Ev.connLostEndPhaseMsg ∉ t := by
    intro hx
    simpa [Ev.isLoopEv] using hloop _ hx
  cases ce <;> cases v <;> cases ro <;> cases o <;>
    simp [attachUI, hv, hl, h3, h4]

lemma attachUI_not_authConnLost (a : AttachArgs) :
    (attachUI a).outcome ≠ .authConnLost := by
  rcases a with ⟨ce, hb, ro, env, ticks, keys⟩
  obtain ⟨v, hv⟩ := hello_total hb
  rcases hl : loopRun env ticks keys none none with ⟨t, r, o⟩
  cases ce <;> cases v <;> cases ro <;> cases o <;>
    simp [attachUI, hv, hl]

lemma attachUI_not_eplost (a : AttachArgs) :
    (attachUI a).outcome ≠ .raisedNameError .endPhaseConnLost := by
  rcases a with ⟨ce, hb, ro, env, ticks, keys⟩
  obtain ⟨v, hv⟩ := hello_total hb
  rcases hl : loopRun env ticks keys none none with ⟨t, r, o⟩
  have h2 := loopRun_not_eplost env ticks keys none none
  rw [hl] at h2
  cases ce <;> cases v <;> cases ro <;> cases o <;>
    simp_all [attachUI, hv, hl]

lemma attachUI_no_abortReq (a : AttachArgs) :
    Req.abortReq ∉ (attachUI a).reqs := by
  rcases a with ⟨ce, hb, ro, env, ticks, keys⟩
  obtain ⟨v, hv⟩ := hello_total hb
  rcases hl : loopRun env ticks keys none none with ⟨t, r, o⟩
  have h2 : Req.abortReq ∉ r := by
    intro hx
    have h3 := loopRun_req_mem env ticks keys none none Req.abortReq
    rw [hl] at h3
    rcases h3 hx with h4 | h4 <;> cases h4
  cases ce <;> cases v <;> cases ro <;> cases o <;>
    simp [attachUI, hv, hl, h2]

lemma attachUI_no_endPhaseReq (a : AttachArgs)
    (hk : Hotkey.END_PHASE ∉ a.keys) :
    Req.endPhaseReq ∉ (attachUI a).reqs := by
  rcases a with ⟨ce, hb, ro, env, ticks, keys⟩
  obtain ⟨v, hv⟩ := hello_total hb
  rcases hl : loopRun env ticks keys none none with ⟨t, r, o⟩
  have h2 : Req.endPhaseReq ∉ r := by
    intro hx
    have h3 := loopRun_no_endPhaseReq env ticks keys none none hk
    rw [hl] at h3
    exact h3 hx
  cases ce <;> cases v <;> cases ro <;> cases o <;>
    simp [attachUI, hv, hl, h2]

lemma attachUI_detached_shape (a : AttachArgs)
    (h : (attachUI a).outcome = .raisedNameError .detached) :
    ∃ pre s, (attachUI a).trace = pre ++ [Ev.paint s, Ev.detach] := by
  rcases a with ⟨ce, hb, ro, env, ticks, keys⟩
  obtain ⟨v, hv⟩ := hello_total hb
  rcases hl : loopRun env ticks keys none none with ⟨t, r, o⟩
  have h4 := loopRun_detached_shape env ticks keys none none
  rw [hl] at h4
  cases ce <;> cases v <;> cases ro <;> cases o <;>
    simp_all [attachUI, hv, hl]

lemma attachUI_cleanup (a : AttachArgs) (i : InnerExit)
    (h : (attachUI a).outcome = .raisedNameError i) :
    (attachUI a).rendererClosed = true ∧ (attachUI a).sockClosed = true := by
  rcases a with ⟨ce, hb, ro, env, ticks, keys⟩
  obtain ⟨v, hv⟩ := hello_total hb
  rcases hl : loopRun env ticks keys none none with ⟨t, r, o⟩
  cases ce <;> cases v <;> cases ro <;> cases o <;>
    simp_all [attachUI, hv, hl]

lemma attachUI_authFailed_sock (a : AttachArgs)
    (h : (attachUI a).outcome = .authFailed) :
    (attachUI a).sockClosed = false := by
  rcases a with ⟨ce, hb, ro, env, ticks, keys⟩
  obtain ⟨v, hv⟩ := hello_total hb
  rcases hl : loopRun env ticks keys none none with ⟨t, r, o⟩
  cases ce <;> cases v <;> cases ro <;> cases o <;>
    simp_all [attachUI, hv, hl]

lemma attachUI_rendererFailed_sock (a : AttachArgs)
    (h : (attachUI a).outcome = .rendererFailed) :
    (attachUI a).sockClosed = false := by
  rcases a with ⟨ce, hb, ro, env, ticks, keys⟩
  obtain ⟨v, hv⟩ := hello_total hb
  rcases hl : loopRun env ticks keys none none with ⟨t, r, o⟩
  cases ce <;> cases v <;> cases ro <;> cases o <;>
    simp_all [attachUI, hv, hl]

lemma hasAdjacent_of_append (x y : Ev) (pre post : List Ev) :
    hasAdjacent x y (pre ++ x :: y :: post) = true := by
  induction pre with
  | nil => simp [hasAdjacent]
  | cons a rest ih =>
    cases rest with
    | nil => simp_all [hasAdjacent]
    | cons b rest2 => simp_all [hasAdjacent]

lemma not_adjacent_of_hasAdjacent_false (x y : Ev) (l : List Ev)
    (h : hasAdjacent x y l = false) :
    ¬ ∃ pre post, l = pre ++ x :: y :: post := by
  rintro ⟨pre, post, rfl⟩
  rw [hasAdjacent_of_append] at h
  cases h

lemma statusFn_okB (r : RawStatus) (h : r.status ≠ some "ended") :
    statusFn (okB r) = some r := by
  simp [statusFn, status, statusBody, catchEx, okB, sendStep, recvStep, h,
    Bind.bind, Except.bind, pure, Except.pure]

lemma statusFn_malformed (b : StatusBehavior) (h : b.data = .malformed) :
    statusFn b = none := by
  rcases b with ⟨se, re, d⟩
  cases h
  rcases se with _ | x
  · rcases re with _ | y
    · rfl
    · cases y <;> rfl
  · cases x <;> rfl

lemma statusFn_empty (b : StatusBehavior) (h : b.data = .empty) :
    statusFn b = none := by
  rcases b with ⟨se, re, d⟩
  cases h
  rcases se with _ | x
  · rcases re with _ | y
    · rfl
    · cases y <;> rfl
  · cases x <;> rfl

lemma loopRun_none_exit (env : ViewerEnv) (b : StatusBehavior)
    (ep : Option SockExc) (rest : List Tick) (keys : List Hotkey)
    (lp : Option Int) (lk : Option Fp) (h : statusFn b = none) :
    loopRun env (.poll b ep :: rest) keys lp lk =
      ([.finishPad, .sessionFinished],
        (if b.sendExc = none then [Req.statusReq] else []),
        some .finished) := by
  simp [loopRun, stepPoll, h]

lemma fingerprintLive_tb (st : Payload) (h : st.display = "timer-back") :
    fingerprintLive st = .tb (pyOrZero st.remaining_s) := by
  simp [fingerprintLive, h]

lemma fingerprintLive_tf (st : Payload) (h : st.display = "timer-forward") :
    fingerprintLive st = .tf (pyOrZero st.elapsed_s) := by
  simp [fingerprintLive, h]

lemma stepPoll_repaint_count (env : ViewerEnv) (b : StatusBehavior)
    (ep : Option SockExc) (keys : List Hotkey) (lp : Option Int)
    (lk : Option Fp) (raw : RawStatus) (hst : statusFn b = some raw)
    (hnp : ¬ (lp = none ∨ (normalizeLive raw).phase_id ≠ lp)) :
    countPaint ((stepPoll env b ep keys lp lk).1).evs =
      (if (env.ansi ∧ ((normalizeLive raw).display = "bar" ∨
            (normalizeLive raw).display = "dots"))
          ∨ some (fingerprintLive (normalizeLive raw)) ≠ lk
        then 1 else 0) := by
  by_cases hc : (env.ansi ∧ ((normalizeLive raw).display = "bar" ∨
      (normalizeLive raw).display = "dots"))
      ∨ some (fingerprintLive (normalizeLive raw)) ≠ lk
  · rw [if_pos hc]
    simp only [stepPoll, hst]
    rw [if_neg hnp, if_neg (not_not_intro hc)]
    rcases hh : keys.headD .NONE with _ | _ | _ | _ | _
    all_goals simp only [hh]
    all_goals try rfl
    rw [end_phase_eq]
    rfl
  · rw [if_neg hc]
    simp only [stepPoll, hst]
    rw [if_neg hnp, if_pos hc]
    rfl

/-- C1: the claim says that when poll_hotkey returns ABORT the viewer sends
an abort request, prints an aborted marker and returns.  The live dispatch at
cli.py lines 600 to 610 has no ABORT branch at all: the concrete run below
has an ABORT hotkey pending, yet the viewer keeps polling (four status
requests are delivered), never sends an abort request, and exits only when
the daemon reports the session ended; moreover no run of attach_ui ever
delivers an abort request. -/
theorem C1_abort_hotkey_ignored :
    attachUI abortRunArgs =
      { trace := [.header (some "Focus"), .paint "00:10", .legend,
          .paint "00:09", .paint "00:08", .finishPad, .sessionFinished],
        reqs := [.helloReq, .statusReq, .statusReq, .statusReq, .statusReq],
        outcome := .raisedNameError .finished,
        rendererClosed := true, sockClosed := true }
    ∧ Req.abortReq ∉ (attachUI abortRunArgs).reqs
    ∧ Ev.detach ∉ (attachUI abortRunArgs).trace
    ∧ (∀ a : AttachArgs, Req.abortReq ∉ (attachUI a).reqs) :=
  ⟨by decide, by decide, by decide, attachUI_no_abortReq⟩

/-- C2, counterexample: the claim says a malformed status reply is skipped
and the viewer keeps polling, and that only a reply whose status field is
ended causes the session finished exit.  In the run below the first reply is
malformed: ipc.status returns None, the viewer takes the graceful session
finished exit at once, and the second, live payload is never requested. -/
theorem C2_counter_malformed_ends_loop :
    attachUI malformedRunArgs =
      { trace := [.finishPad, .sessionFinished],
        reqs := [.helloReq, .statusReq],
        outcome := .raisedNameError .finished,
        rendererClosed := true, sockClosed := true } := by
  decide

/-- C2, amended: a malformed or empty reply makes ipc.status return None,
which the viewer cannot distinguish from the ended sentinel, so it takes the
graceful session finished exit instead of skipping the tick; a reply that
decodes but lacks fields is passed on (defaults are filled by normalization)
and the loop continues without crashing. -/
theorem C2_malformed_reply_handling :
    (∀ b : StatusBehavior, b.data = .malformed → statusFn b = none)
    ∧ (∀ b : StatusBehavior, b.data = .empty → statusFn b = none)
    ∧ (∀ (env : ViewerEnv) (b : StatusBehavior) (ep : Option SockExc)
        (rest : List Tick) (keys : List Hotkey) (lp : Option Int)
        (lk : Option Fp),
        statusFn b = none →
        loopRun env (.poll b ep :: rest) keys lp lk =
          ([.finishPad, .sessionFinished],
            (if b.sendExc = none then [Req.statusReq] else []),
            some .finished))
    ∧ (∀ raw : RawStatus, raw.status ≠ some "ended" →
        statusFn (okB raw) = some raw)
    ∧ (∀ (env : ViewerEnv) (raw : RawStatus) (ep : Option SockExc)
        (keys : List Hotkey),
        raw.status ≠ some "ended" →
        (loopRun env [.poll (okB raw) ep] keys none none).2.2 = none) := by
  refine ⟨statusFn_malformed, statusFn_empty, loopRun_none_exit, statusFn_okB, ?_⟩
  intro env raw ep keys h
  simp [loopRun, stepPoll, statusFn_okB raw h]

/-- C2, witness for the amended theorem at concrete inputs. -/
theorem C2_malformed_reply_handling_witness :
    statusFn malformedB = none
    ∧ loopRun envNoAnsi [.poll malformedB none] [] none none =
        ([.finishPad, .sessionFinished], [Req.statusReq], some .finished)
    ∧ statusFn (okB (rawTB 1 10 60)) = some (rawTB 1 10 60)
    ∧ (loopRun envNoAnsi [.poll (okB (rawTB 1 10 60)) none] [] none none).2.2
        = none := by
  refine ⟨C2_malformed_reply_handling.1 malformedB rfl, ?_,
    C2_malformed_reply_handling.2.2.2.1 (rawTB 1 10 60) (by decide),
    C2_malformed_reply_handling.2.2.2.2 envNoAnsi (rawTB 1 10 60) none []
      (by decide)⟩
  have h := C2_malformed_reply_handling.2.2.1 envNoAnsi malformedB none [] []
    none none (C2_malformed_reply_handling.1 malformedB rfl)
  simpa using h

/-- C3, counterexample: the claim says that with a TOGGLE_HIDE hotkey at the
first poll the output contains the legend line followed immediately by the
detach marker.  In the concrete run below the hotkey is pending from the
start, yet the hotkey is only polled on the first repainting iteration, so a
repainted status line always stands between the legend and the detach
marker: the trace is explicit and legend is never adjacent to detach. -/
theorem C3_counter_legend_not_adjacent :
    (attachUI detachRunArgs).trace =
      [.header (some "Focus"), .paint "00:10", .legend, .paint "00:09",
        .detach]
    ∧ Ev.detach ∈ (attachUI detachRunArgs).trace
    ∧ hasAdjacent Ev.legend Ev.detach (attachUI detachRunArgs).trace = false
    ∧ ¬ ∃ pre post, (attachUI detachRunArgs).trace =
        pre ++ Ev.legend :: Ev.detach :: post := by
  refine ⟨by decide, by decide, by decide, ?_⟩
  exact not_adjacent_of_hasAdjacent_false _ _ _ (by decide)

/-- C3, amended: the hotkey is polled only after a repaint, so whenever the
viewer detaches, the detach marker is immediately preceded by a repainted
status line (not by the legend); and when the hotkey source never yields
END_PHASE no end_phase request is delivered, while an abort request is never
delivered on any run at all. -/
theorem C3_detach_after_repaint :
    (∀ a : AttachArgs, (attachUI a).outcome = .raisedNameError .detached →
      ∃ pre s, (attachUI a).trace = pre ++ [Ev.paint s, Ev.detach])
    ∧ (∀ a : AttachArgs, Hotkey.END_PHASE ∉ a.keys →
        Req.endPhaseReq ∉ (attachUI a).reqs)
    ∧ (∀ a : AttachArgs, Req.abortReq ∉ (attachUI a).reqs) :=
  ⟨attachUI_detached_shape, attachUI_no_endPhaseReq, attachUI_no_abortReq⟩

/-- C3, witness for the amended theorem on the concrete detach run. -/
theorem C3_detach_after_repaint_witness :
    (∃ pre s, (attachUI detachRunArgs).trace =
      pre ++ [Ev.paint s, Ev.detach])
    ∧ Req.endPhaseReq ∉ (attachUI detachRunArgs).reqs := by
  refine ⟨C3_detach_after_repaint.1 detachRunArgs (by decide),
    C3_detach_after_repaint.2.1 detachRunArgs (by decide)⟩

lemma loopRun_tb_dedup (env : ViewerEnv) (pid n dur : Int)
    (ep1 ep2 : Option SockExc) (keys : List Hotkey) :
    countPaint (loopRun env [.poll (okB (rawTB pid n dur)) ep1,
      .poll (okB (rawTB pid n dur)) ep2] keys none none).1 = 1 := by
  have h := statusFn_okB (rawTB pid n dur) (by simp [rawTB])
  simp only [rawTB] at h
  rcases env with ⟨ansi, fr⟩
  cases ansi <;>
    simp [loopRun, stepPoll, h, normalizeLive, rawTB, fingerprintLive,
      pyGetOr, pyOrZero, countPaint]

lemma loopRun_bar_force (fr : Payload → String) (pid : Int) (q : ℚ)
    (ep1 ep2 : Option SockExc) :
    countPaint (loopRun ⟨true, fr⟩ [.poll (okB (rawBar pid q)) ep1,
      .poll (okB (rawBar pid q)) ep2] [] none none).1 = 2 := by
  have h := statusFn_okB (rawBar pid q) (by simp [rawBar])
  simp only [rawBar] at h
  simp [loopRun, stepPoll, h, normalizeLive, rawBar, fingerprintLive,
    pyGetOr, pyOrZero, countPaint]

/-- C4: the fingerprint is a function of the active display mode, timer-back
on the remaining seconds or zero, timer-forward on the elapsed seconds or
zero, bar and dots on progress times 1000 rounded, anything else on
phase_id; on an unchanged phase the status line is repainted exactly when
the fingerprint changed or unconditionally under ANSI in bar or dots mode;
in particular two consecutive polls with identical remaining seconds in
countdown mode paint the line once, while two identical polls in bar mode
under ANSI paint it twice. -/
theorem C4_fingerprint_repaint_discipline :
    (∀ st : Payload, st.display = "timer-back" →
      fingerprintLive st = .tb (pyOrZero st.remaining_s))
    ∧ (∀ st : Payload, st.display = "timer-forward" →
      fingerprintLive st = .tf (pyOrZero st.elapsed_s))
    ∧ (∀ st : Payload, st.display = "bar" ∨ st.display = "dots" →
      fingerprintLive st = .p (pyRound (st.progress * 1000)))
    ∧ (∀ st : Payload, st.display ≠ "timer-back" →
      st.display ≠ "timer-forward" → st.display ≠ "bar" →
      st.display ≠ "dots" → fingerprintLive st = .raw st.phase_id)
    ∧ (∀ (env : ViewerEnv) (b : StatusBehavior) (ep : Option SockExc)
        (keys : List Hotkey) (lp : Option Int) (lk : Option Fp)
        (raw : RawStatus), statusFn b = some raw →
      ¬ (lp = none ∨ (normalizeLive raw).phase_id ≠ lp) →
      countPaint ((stepPoll env b ep keys lp lk).1).evs =
        (if (env.ansi ∧ ((normalizeLive raw).display = "bar" ∨
              (normalizeLive raw).display = "dots"))
            ∨ some (fingerprintLive (normalizeLive raw)) ≠ lk
          then 1 else 0))
    ∧ (∀ (env : ViewerEnv) (pid n dur : Int) (ep1 ep2 : Option SockExc)
        (keys : List Hotkey),
      countPaint (loopRun env [.poll (okB (rawTB pid n dur)) ep1,
        .poll (okB (rawTB pid n dur)) ep2] keys none none).1 = 1)
    ∧ (∀ (fr : Payload → String) (pid : Int) (q : ℚ)
        (ep1 ep2 : Option SockExc),
      countPaint (loopRun ⟨true, fr⟩ [.poll (okB (rawBar pid q)) ep1,
        .poll (okB (rawBar pid q)) ep2] [] none none).1 = 2) := by
  refine ⟨fingerprintLive_tb, fingerprintLive_tf, ?_, ?_,
    stepPoll_repaint_count, loopRun_tb_dedup, loopRun_bar_force⟩
  · intro st h
    rcases h with h | h <;> simp [fingerprintLive, h]
  · intro st h1 h2 h3 h4
    simp [fingerprintLive, h1, h2, h3, h4]

/-- C4, witness at concrete payloads and runs, discharging each
hypothesis. -/
theorem C4_fingerprint_repaint_discipline_witness :
    fingerprintLive (payloadTB (some 7)) = .tb (pyOrZero (some 7))
    ∧ countPaint (loopRun envNoAnsi [.poll (okB (rawTB 1 9 60)) none,
        .poll (okB (rawTB 1 9 60)) none] [] none none).1 = 1
    ∧ countPaint (loopRun ⟨true, frameD⟩ [.poll (okB (rawBar 1 (1 / 2))) none,
        .poll (okB (rawBar 1 (1 / 2))) none] [] none none).1 = 2
    ∧ countPaint ((stepPoll envNoAnsi (okB (rawTB 1 9 60)) none []
          (some 1) (some (.tb 9))).1).evs =
        (if (envNoAnsi.ansi ∧
              ((normalizeLive (rawTB 1 9 60)).display = "bar" ∨
                (normalizeLive (rawTB 1 9 60)).display = "dots"))
            ∨ some (fingerprintLive (normalizeLive (rawTB 1 9 60)))
                ≠ some (.tb 9)
          then 1 else 0) :=
  ⟨C4_fingerprint_repaint_discipline.1 (payloadTB (some 7)) rfl,
    C4_fingerprint_repaint_discipline.2.2.2.2.2.1 envNoAnsi 1 9 60 none none [],
    C4_fingerprint_repaint_discipline.2.2.2.2.2.2 frameD 1 (1 / 2) none none,
    C4_fingerprint_repaint_discipline.2.2.2.2.1 envNoAnsi (okB (rawTB 1 9 60))
      none [] (some 1) (some (.tb 9)) (rawTB 1 9 60) (by decide) (by decide)⟩

/-- C5: the claim says no failure ever propagates out of attach_ui as an
uncaught exception, in particular not on the graceful session ended path.
But every exit of the polling loop runs the finally block at cli.py lines
615 to 623, whose diagnostic print interpolates the local e, unbound on
every path that reaches it, so UnboundLocalError is raised after the
cleanup: the session finished run and the interrupted run below both end in
the raised exception. -/
theorem C5_finally_block_raises :
    attachUI finishRunArgs =
      { trace := [.finishPad, .sessionFinished],
        reqs := [.helloReq, .statusReq],
        outcome := .raisedNameError .finished,
        rendererClosed := true, sockClosed := true }
    ∧ attachUI interruptRunArgs =
      { trace := [.header (some "Focus"), .paint "00:10", .legend,
          .interruptedMsg],
        reqs := [.helloReq, .statusReq],
        outcome := .raisedNameError .interrupted,
        rendererClosed := true, sockClosed := true } :=
  ⟨by decide, by decide⟩

/-- C6, counterexample: the claim says the socket is closed on every exit
path after the socket is created, including authentication failure.  An
authentication failure returns straight from the handshake block, before the
try that owns the finally, so the socket is not closed. -/
theorem C6_counter_auth_failure_leaks_socket :
    attachUI authFailArgs =
      { trace := [.authFailedMsg], reqs := [.helloReq],
        outcome := .authFailed,
        rendererClosed := false, sockClosed := false } := by
  decide

/-- C6, amended: on every exit that passes through the polling loop
(session ended, detach, interrupt, connection loss) the renderer and the
socket are closed before control leaves attach_ui, but the pre loop failure
paths, authentication failure and renderer construction failure, return
without closing the socket. -/
theorem C6_cleanup_only_on_loop_exits :
    (∀ (a : AttachArgs) (i : InnerExit),
      (attachUI a).outcome = .raisedNameError i →
      (attachUI a).rendererClosed = true ∧ (attachUI a).sockClosed = true)
    ∧ (∀ a : AttachArgs, (attachUI a).outcome = .authFailed →
        (attachUI a).sockClosed = false)
    ∧ (∀ a : AttachArgs, (attachUI a).outcome = .rendererFailed →
        (attachUI a).sockClosed = false) :=
  ⟨attachUI_cleanup, attachUI_authFailed_sock, attachUI_rendererFailed_sock⟩

/-- C6, witness for the amended theorem at concrete runs. -/
theorem C6_cleanup_only_on_loop_exits_witness :
    ((attachUI finishRunArgs).rendererClosed = true
      ∧ (attachUI finishRunArgs).sockClosed = true)
    ∧ (attachUI authFailArgs).sockClosed = false :=
  ⟨C6_cleanup_only_on_loop_exits.1 finishRunArgs .finished (by decide),
    C6_cleanup_only_on_loop_exits.2.1 authFailArgs (by decide)⟩

/-- C7, counterexample: the claim says that when elapsed_s is absent but
remaining_s and duration_s are present (here through the legacy names left
and total), elapsed_s is computed as duration minus remaining before the
payload reaches the renderer and the fingerprint.  The live normalization
leaves elapsed_s as None, the count up fingerprint therefore reads 0 and
not 50; only the unreachable later revision helper performs the
derivation. -/
theorem C7_counter_no_elapsed_derivation :
    (normalizeLive raw7).remaining_s = some 10
    ∧ (normalizeLive raw7).duration_s = some 60
    ∧ (normalizeLive raw7).elapsed_s = none
    ∧ (normalizeLive raw7).elapsed_s ≠ some 50
    ∧ fingerprintLive (normalizeLive raw7) = .tf 0
    ∧ (normLater raw7).elapsed_s = 50 := by
  decide

/-- C7, amended: the live normalization accepts the current names with the
legacy fallbacks left, elapsed and total, but never derives one field from
another; the derivation elapsed equals clamp of duration minus remaining
exists only in the unreachable later revision helper. -/
theorem C7_normalization_no_derivation :
    (∀ st : RawStatus,
      (normalizeLive st).remaining_s = pyGetOr st.remaining_s st.left
      ∧ (normalizeLive st).duration_s = pyGetOr st.duration_s st.total
      ∧ (normalizeLive st).elapsed_s = pyGetOr st.elapsed_s st.elapsed)
    ∧ (∀ (st : RawStatus) (r d : Int), st.elapsed_s = none →
        pyGetOr st.remaining_s st.left = some r →
        pyGetOr st.duration_s st.total = some d →
        (normLater st).elapsed_s = max 0 (d - r)) := by
  constructor
  · intro st
    exact ⟨rfl, rfl, rfl⟩
  · intro st r d h1 h2 h3
    simp [normLater, h1, h2, h3]

/-- C7, witness for the amended theorem at the concrete legacy payload. -/
theorem C7_normalization_no_derivation_witness :
    (normalizeLive raw7).elapsed_s = pyGetOr raw7.elapsed_s raw7.elapsed
    ∧ (normLater raw7).elapsed_s = max 0 (60 - 10) :=
  ⟨(C7_normalization_no_derivation.1 raw7).2.2,
    C7_normalization_no_derivation.2 raw7 10 60 rfl rfl rfl⟩

/-- C8: every ipc client function catches every Exception internally and
returns a value of its declared type for every socket behavior, so the
handshake handler for a lost connection and the end_phase handler in
attach_ui are unreachable, and a failed end_phase send is silently
swallowed as the return value False. -/
theorem C8_ipc_total_handlers_unreachable :
    (∀ b : StatusBehavior, ∃ v, hello b = .ok v)
    ∧ (∀ b : StatusBehavior, ∃ v, status b = .ok v)
    ∧ (∀ e : Option SockExc, end_phase e = .ok e.isNone)
    ∧ (∀ e : Option SockExc, abort e = .ok e.isNone)
    ∧ (∀ x : SockExc, end_phase (some x) = .ok false)
    ∧ (∀ a : AttachArgs, Ev.authConnLostMsg ∉ (attachUI a).trace)
    ∧ (∀ a : AttachArgs, Ev.connLostEndPhaseMsg ∉ (attachUI a).trace)
    ∧ (∀ a : AttachArgs, (attachUI a).outcome ≠ .authConnLost)
    ∧ (∀ a : AttachArgs,
        (attachUI a).outcome ≠ .raisedNameError .endPhaseConnLost) :=
  ⟨hello_total, status_total, end_phase_eq, abort_eq,
    fun x => by rw [end_phase_eq]; rfl,
    fun a => (attachUI_dead_msgs a).1,
    fun a => (attachUI_dead_msgs a).2,
    attachUI_not_authConnLost, attachUI_not_eplost⟩

/-- C9: the live fingerprint revision and the unreachable later copy agree
whenever the mode relevant field is a present integer; they differ exactly
when that field is None, where the live revision yields the component 0 and
the later copy raises a TypeError (modelled as none). -/
theorem C9_fingerprint_revisions_agree :
    ∀ st : Payload,
      (st.display = "timer-back" → ∀ n : Int, st.remaining_s = some n →
        fingerprintLive st = .tb n ∧ fingerprintLater st = some (.tb n))
      ∧ (st.display = "timer-back" → st.remaining_s = none →
        fingerprintLive st = .tb 0 ∧ fingerprintLater st = none)
      ∧ (st.display = "timer-forward" → ∀ n : Int, st.elapsed_s = some n →
        fingerprintLive st = .tf n ∧ fingerprintLater st = some (.tf n))
      ∧ (st.display = "timer-forward" → st.elapsed_s = none →
        fingerprintLive st = .tf 0 ∧ fingerprintLater st = none)
      ∧ (st.display ≠ "timer-back" → st.display ≠ "timer-forward" →
        fingerprintLater st = some (fingerprintLive st)) := by
  intro st
  refine ⟨?_, ?_, ?_, ?_, ?_⟩
  · intro h1 n h2
    simp [fingerprintLive, fingerprintLater, h1, h2, pyOrZero]
  · intro h1 h2
    simp [fingerprintLive, fingerprintLater, h1, h2, pyOrZero]
  · intro h1 n h2
    simp [fingerprintLive, fingerprintLater, h1, h2, pyOrZero]
  · intro h1 h2
    simp [fingerprintLive, fingerprintLater, h1, h2, pyOrZero]
  · intro h1 h2
    by_cases hbd : st.display = "bar" ∨ st.display = "dots" <;>
      simp [fingerprintLive, fingerprintLater, h1, h2, hbd]

/-- C9, witness at two concrete payloads, one with remaining_s present and
one with it absent. -/
theorem C9_fingerprint_revisions_agree_witness :
    (fingerprintLive (payloadTB (some 7)) = .tb 7
      ∧ fingerprintLater (payloadTB (some 7)) = some (.tb 7))
    ∧ (fingerprintLive (payloadTB none) = .tb 0
      ∧ fingerprintLater (payloadTB none) = none) :=
  ⟨(C9_fingerprint_revisions_agree (payloadTB (some 7))).1 rfl 7 rfl,
    (C9_fingerprint_revisions_agree (payloadTB none)).2.1 rfl rfl⟩

/-- C10: mmss and the viewer local copy clamp at zero and format
max 0 s divided by 60 and the remainder, each zero padded to at least two
digits: every negative input gives 00:00 and the minutes field may exceed
59 without wrapping into hours. -/
theorem C10_mmss_formatting :
    (∀ s : Int, mmss s =
      pad2 ((max 0 s).toNat / 60) ++ ":" ++ pad2 ((max 0 s).toNat % 60))
    ∧ (∀ s : Int, viewerMmss s = mmss s)
    ∧ (∀ s : Int, s < 0 → mmss s = "00:00")
    ∧ mmss 3661 = "61:01"
    ∧ mmss 65 = "01:05"
    ∧ mmss 0 = "00:00" := by
  refine ⟨fun s => rfl, fun s => rfl, ?_, by decide, by decide, by decide⟩
  intro s hs
  have h0 : max 0 s = 0 := max_eq_left hs.le
  simp only [mmss, h0]
  decide

/-- C10, witness discharging the negativity hypothesis at a concrete
input. -/
theorem C10_mmss_formatting_witness :
    mmss (-7) = "00:00" :=
  C10_mmss_formatting.2.2.1 (-7) (by decide)

end Shellpomodoro
